import Mathlib

/-!
Verification of the clip-segmentation and subtitle-generation pipeline
(`1_Clip_Videos.py`, `2_Generate_Subtitles.py`).

Timestamps are modelled as integers (seconds); Python `timedelta` values are
integers of total seconds, and `timedelta.seconds` is the normalised
seconds-of-day component, i.e. reduction modulo 86400 (Python's floor-mod).
Fractional quantities (probed durations, sensor values) are modelled as
exact decimals, all of whose arithmetic here is kernel-computable.
-/

namespace ClipVideos

/-- Python `timedelta.seconds` for a whole-second delta of `t` total seconds:
the normalised seconds component, `t mod 86400` with floor semantics
(`timedelta` normalises so that `0 ≤ seconds < 86400`, pushing the sign into
the days component). -/
def tdSeconds (t : Int) : Int := t.emod 86400

/-- An exact decimal value `mant / 10 ^ exp`: the carrier for the
float-valued quantities of the scripts.  Every such quantity originates in a
decimal numeral (CSV cells, `ffprobe` output) or a decimal rounding of one,
so the binary float carrier is idealised by exact decimal arithmetic. -/
structure Dec where
  mant : Int
  exp : Nat
deriving DecidableEq

/-- The rational value of an exact decimal. -/
def Dec.toRat (x : Dec) : Rat := (x.mant : Rat) / (10 : Rat) ^ x.exp

/-- `x + 1` on exact decimals (the `+ 1` second buffers of both scripts). -/
def Dec.addOne (x : Dec) : Dec := ⟨x.mant + 10 ^ x.exp, x.exp⟩

/-- Python `int()` applied to a float: truncation toward zero. -/
def pyInt (x : Dec) : Int :=
  if x.mant < 0 then -((-x.mant) / 10 ^ x.exp) else x.mant / 10 ^ x.exp

/-! ## Characters and digit strings -/

/-- Value of an ASCII digit character. -/
def digVal (c : Char) : Nat := c.toNat - 48

/-- Is `c` an ASCII digit? (`strptime` numeric fields accept ASCII digits.) -/
def isDig (c : Char) : Bool := decide (48 ≤ c.toNat) && decide (c.toNat ≤ 57)

/-- ASCII digit character for a value `0..9`. -/
def digitChar (n : Nat) : Char := Char.ofNat (48 + n)

/-- Two-digit zero-padded decimal rendering (`%m`, `%d`, `%H`, `%M`, `%S`). -/
def pad2 (n : Nat) : List Char := [digitChar (n / 10), digitChar (n % 10)]

/-- Four-digit zero-padded decimal rendering (`%Y`). -/
def pad4 (n : Nat) : List Char :=
  [digitChar (n / 1000), digitChar (n / 100 % 10), digitChar (n / 10 % 10), digitChar (n % 10)]

/-- Numeric value of a two-ASCII-digit field. -/
def num2 (a b : Char) : Nat := 10 * digVal a + digVal b

/-- Numeric value of a four-ASCII-digit field. -/
def num4 (a b c d : Char) : Nat :=
  1000 * digVal a + 100 * digVal b + 10 * digVal c + digVal d

/-- Python `str.split(sep)` for a single-character separator, on the
character list of the string.  `"".split(sep)` yields one empty field. -/
def splitOnChar (sep : Char) : List Char → List (List Char)
  | [] => [[]]
  | c :: cs =>
    let r := splitOnChar sep cs
    if c = sep then [] :: r else (c :: r.headD []) :: r.tail

/-! ## Calendar datetimes (`datetime.datetime`) -/

/-- Gregorian leap-year rule, as implemented by `datetime`. -/
def isLeap (y : Nat) : Bool := y % 4 == 0 && (y % 100 != 0 || y % 400 == 0)

/-- Days in a month, as validated by `datetime`. -/
def daysInMonth (y m : Nat) : Nat :=
  if m = 2 then (if isLeap y then 29 else 28)
  else if m = 4 ∨ m = 6 ∨ m = 9 ∨ m = 11 then 30
  else 31

/-- A `datetime.datetime` value (whole seconds; the parse formats used by the
scripts never produce sub-second precision). -/
structure DateTime where
  year : Nat
  month : Nat
  day : Nat
  hour : Nat
  minute : Nat
  second : Nat
deriving DecidableEq

/-- The range validation performed by the `datetime` constructor
(`MINYEAR = 1`, `MAXYEAR = 9999`). -/
def mkDT (y mo d h mi s : Nat) : Option DateTime :=
  if 1 ≤ y ∧ y ≤ 9999 ∧ 1 ≤ mo ∧ mo ≤ 12 ∧ 1 ≤ d ∧ d ≤ daysInMonth y mo ∧
      h ≤ 23 ∧ mi ≤ 59 ∧ s ≤ 59 then
    some ⟨y, mo, d, h, mi, s⟩
  else none

/-- `datetime.strptime(date + ' ' + time, '%Y%m%d %H%M%S')` on the exact
8-digit date and 6-digit time shapes produced by conforming filenames.
(Python's `strptime` also accepts some shorter digit runs; those never arise
from the fixed-width filename convention the scripts require.) -/
def parseDTChars (date timePart : List Char) : Option DateTime :=
  match date, timePart with
  | [a, b, c, d, e, f, g, h], [p, q, r, s, t, u] =>
    if isDig a && isDig b && isDig c && isDig d && isDig e && isDig f &&
        isDig g && isDig h && isDig p && isDig q && isDig r && isDig s &&
        isDig t && isDig u then
      mkDT (num4 a b c d) (num2 e f) (num2 g h) (num2 p q) (num2 r s) (num2 t u)
    else none
  | _, _ => none

/-- String-level wrapper for the filename timestamp parse. -/
def strptimeYmdHms (date timeStr : String) : Option DateTime :=
  parseDTChars date.data timeStr.data

/-- `datetime.strptime(s, '%Y-%m-%d %H:%M:%S')`, the dive-log timestamp
format, on its exact 19-character shape. -/
def strptimeDashed (s : String) : Option DateTime :=
  match s.data with
  | [a, b, c, d, '-', e, f, '-', g, h, ' ', p, q, ':', r, t, ':', u, w] =>
    if isDig a && isDig b && isDig c && isDig d && isDig e && isDig f &&
        isDig g && isDig h && isDig p && isDig q && isDig r && isDig t &&
        isDig u && isDig w then
      mkDT (num4 a b c d) (num2 e f) (num2 g h) (num2 p q) (num2 r t) (num2 u w)
    else none
  | _ => none

/-- Character-level rendering of `strftime('%Y%m%d_%H%M%S')`. -/
def fmtChars (dt : DateTime) : List Char :=
  pad4 dt.year ++ pad2 dt.month ++ pad2 dt.day ++
    '_' :: (pad2 dt.hour ++ pad2 dt.minute ++ pad2 dt.second)

/-- `starttime.strftime('%Y%m%d_%H%M%S')`, the clip-name timestamp format. -/
def strftimeYmdHms (dt : DateTime) : String := String.mk (fmtChars dt)

/-- Days since the Unix epoch of a Gregorian civil date
(Hinnant's `days_from_civil`); `datetime` subtraction is modelled through it. -/
def daysFromCivil (y m d : Int) : Int :=
  let yy := if m ≤ 2 then y - 1 else y
  let era := (if 0 ≤ yy then yy else yy - 399) / 400
  let yoe := yy - era * 400
  let doy := (153 * (if 2 < m then m - 3 else m + 9) + 2) / 5 + d - 1
  let doe := yoe * 365 + yoe / 4 - yoe / 100 + doy
  era * 146097 + doe - 719468

/-- Absolute time of a `DateTime` in seconds since the Unix epoch; differences
of these model `datetime` subtraction (`timedelta` total seconds). -/
def toEpoch (dt : DateTime) : Int :=
  daysFromCivil dt.year dt.month dt.day * 86400 +
    (dt.hour * 3600 + dt.minute * 60 + dt.second)

/-! ## `1_Clip_Videos.py`: filename parse, buffer arithmetic, clip loop -/

/-- Failure modes of per-video processing; each constructor models the
uncaught Python exception the script raises at the corresponding point:
`malformedFilename` is the `IndexError` from `parts[1]`/`parts[2]`/`parts[3]`
after `video.split('_')`, `badTimestamp` the `ValueError` from `strptime` on
a non-matching string, `missingDiveKey` the `TypeError` from
`strptime(None, ...)` when `startsDict.get`/`endsDict.get` returns `None`,
and `probeParseFailure` the `ValueError` from `float()` on the cleaned
`ffprobe` output. -/
inductive PyErr where
  | malformedFilename
  | badTimestamp
  | missingDiveKey
  | probeParseFailure
deriving DecidableEq

/-- Decidable equality for `Except`, so concrete runs of the fallible
embeddings can be checked by `decide`. -/
instance {ε α : Type} [DecidableEq ε] [DecidableEq α] : DecidableEq (Except ε α)
  | .error a, .error b =>
    if h : a = b then .isTrue (by rw [h]) else .isFalse (by simp [h])
  | .error _, .ok _ => .isFalse (by simp)
  | .ok _, .error _ => .isFalse (by simp)
  | .ok a, .ok b =>
    if h : a = b then .isTrue (by rw [h]) else .isFalse (by simp [h])

/-- The four fields the script reads from a filename:
`parts[0]`, `parts[1]`, `parts[2]` and `parts[3].split('.')[0]`. -/
structure NameParts where
  trip : String
  dive : String
  date : String
  timeNoExt : String
deriving DecidableEq

/-- Lines 95–98: `parts = video.split('_')`; accessing `parts[1]`,
`parts[2]`, `parts[3]` raises `IndexError` when fewer than four fields
exist; any further fields are never read. -/
def parseVideoFilename (video : String) : Except PyErr NameParts :=
  let parts := splitOnChar '_' video.data
  match parts[1]?, parts[2]?, parts[3]? with
  | some dive, some date, some tpart =>
    .ok ⟨String.mk (parts.headD []), String.mk dive, String.mk date,
         String.mk ((splitOnChar '.' tpart).headD [])⟩
  | _, _, _ => .error .malformedFilename

/-- Lines 95–101: filename split followed by
`datetime.strptime(videostart, '%Y%m%d %H%M%S')`. -/
def parseIdentity (video : String) : Except PyErr (String × String × DateTime) :=
  match parseVideoFilename video with
  | .error e => .error e
  | .ok np =>
    match strptimeYmdHms np.date np.timeNoExt with
    | none => .error .badTimestamp
    | some dt => .ok (np.trip, np.dive, dt)

/-- One emitted clip: the `-ss` start offset (the full `timedelta`
`elapsedSecs`, in seconds from video start) and the nominal `-t` length
(`00:clipsize:00`, in seconds). -/
structure ClipBoundary where
  off : Int
  len : Int
deriving DecidableEq

/-- Lines 132–145: `while elapsedSecs.seconds < elapsedSecs_endtransect`,
emitting a clip at the current offset and advancing by the clip length.
The Python loop can fail to terminate (the comparison wraps at 24 h), so the
embedding carries explicit fuel: the result is the prefix of the emitted
sequence of length at most `fuel`. -/
def clipLoop : Nat → Int → Int → Int → List ClipBoundary
  | 0, _, _, _ => []
  | fuel + 1, elapsed, bound, clen =>
    if tdSeconds elapsed < bound then
      ⟨elapsed, clen⟩ :: clipLoop fuel (elapsed + clen) bound clen
    else []

/-- Line 126: `elapsedSecs_endtransect = (transectEndDateTime -
videoStartDateTime).seconds`, after the 30-second buffer was added to the
raw transect end (line 115). -/
def elapsedSecsEndTransect (videoStart tEndRaw : Int) : Int :=
  tdSeconds (tEndRaw + 30 - videoStart)

/-- Lines 113–145: buffer the transect window by 30 s on each side, take the
elapsed offset of the buffered start, and run the clip loop against the
wrapped elapsed-seconds bound.  `clipMin` is the configured clip size in
minutes (`clipsize`); the probed duration feeds only a console warning and
does not influence the emitted boundaries. -/
def segmentVideo (videoStart tStartRaw tEndRaw : Int) (clipMin : Nat)
    (fuel : Nat) : List ClipBoundary :=
  clipLoop fuel (tStartRaw - 30 - videoStart)
    (elapsedSecsEndTransect videoStart tEndRaw) (60 * clipMin)

/-- Digits-to-number accumulator for `float()` parsing. -/
def digitsToNat (l : List Char) : Nat := l.foldl (fun a c => 10 * a + digVal c) 0

/-- Python `float()` on a string already cleaned to digits and dots by
`re.sub('[^0-9.]', '', ...)`: at most one dot and at least one digit, else
`ValueError` (modelled as `none`). -/
def pyFloatOfClean (cs : List Char) : Option Dec :=
  match splitOnChar '.' cs with
  | [ip] => if ip.isEmpty then none else some ⟨digitsToNat ip, 0⟩
  | [ip, fp] =>
    if ip.isEmpty && fp.isEmpty then none
    else some ⟨digitsToNat (ip ++ fp), fp.length⟩
  | _ => none

/-- Lines 121–123: clean the probe output and parse it as a float. -/
def parseProbeOutput (out : String) : Option Dec :=
  pyFloatOfClean (out.data.filter (fun c => c.isDigit || c == '.'))

/-- Lines 92–145, one iteration of the per-video loop.  `starts`/`ends`
model `startsDict`/`endsDict` (dive name to raw timestamp string),
`probeOut` the `ffprobe` stdout for each video.  Any constructor of `PyErr`
aborts the iteration exactly where the script raises. -/
def processVideo (starts ends : String → Option String)
    (probeOut : String → String) (clipMin fuel : Nat) (video : String) :
    Except PyErr (List ClipBoundary) :=
  match parseIdentity video with
  | .error e => .error e
  | .ok (_, divename, vdt) =>
    match starts divename with
    | none => .error .missingDiveKey
    | some ts =>
      match strptimeDashed ts with
      | none => .error .badTimestamp
      | some tsd =>
        match ends divename with
        | none => .error .missingDiveKey
        | some te =>
          match strptimeDashed te with
          | none => .error .badTimestamp
          | some ted =>
            match parseProbeOutput (probeOut video) with
            | none => .error .probeParseFailure
            | some _ =>
              .ok (segmentVideo (toEpoch vdt) (toEpoch tsd) (toEpoch ted)
                    clipMin fuel)

/-- Lines 92–145, the whole `for video in videofiles` loop: an exception in
one iteration is uncaught (there is no `try`/`except` in the script), so it
aborts the entire batch; later videos are not processed. -/
def processBatch (starts ends : String → Option String)
    (probeOut : String → String) (clipMin fuel : Nat) :
    List String → Except PyErr (List (String × List ClipBoundary))
  | [] => .ok []
  | v :: vs =>
    match processVideo starts ends probeOut clipMin fuel v with
    | .error e => .error e
    | .ok cs =>
      match processBatch starts ends probeOut clipMin fuel vs with
      | .error e => .error e
      | .ok rest => .ok ((v, cs) :: rest)

/-- Follows the specification's words, not the script: "per-item runtime
errors ... should be reported ... and the run should continue with the next
item".  A failing video is skipped and the remaining videos are still
processed. -/
def processBatchSpecSkip (starts ends : String → Option String)
    (probeOut : String → String) (clipMin fuel : Nat) :
    List String → List (String × List ClipBoundary)
  | [] => []
  | v :: vs =>
    match processVideo starts ends probeOut clipMin fuel v with
    | .error _ => processBatchSpecSkip starts ends probeOut clipMin fuel vs
    | .ok cs => (v, cs) :: processBatchSpecSkip starts ends probeOut clipMin fuel vs

/-! ## `2_Generate_Subtitles.py`: telemetry rows, selection, caption build

Telemetry values are modelled as exact decimals (the CSV's decimal
numerals), with `pandas.DataFrame.round` as round-half-to-even at the
requested number of decimals. -/

/-- One telemetry row restricted to the configured `names` columns:
`Dive_Name`, `Datetime` (epoch seconds; the parse format
`'%Y-%m-%d %H:%M:%S'` yields whole seconds) and the numeric sensor fields
`ROV_Longitude_loess`, `ROV_Latitude_loess`, `Depth_m`, `Speed_kts`,
`Altitude_m`. -/
structure TRow where
  dive : String
  datetime : Int
  lon : Dec
  lat : Dec
  depth : Dec
  speed : Dec
  alt : Dec
deriving DecidableEq

/-- Placeholder row for out-of-range indexing (never reached by the loop,
whose indices stay below the row count). -/
def dfltRow : TRow := ⟨"", 0, ⟨0, 0⟩, ⟨0, 0⟩, ⟨0, 0⟩, ⟨0, 0⟩, ⟨0, 0⟩⟩

/-- Line 106: `re.sub('ROV_|loess', '', n)` — left-to-right removal of every
occurrence of either literal alternative. -/
def subROVloess : List Char → List Char
  | 'R' :: 'O' :: 'V' :: '_' :: rest => subROVloess rest
  | 'l' :: 'o' :: 'e' :: 's' :: 's' :: rest => subROVloess rest
  | c :: rest => c :: subROVloess rest
  | [] => []

/-- Line 107: `re.sub('_.*', '', n)` — drop everything from the first
underscore on. -/
def stripAfterUnderscore (l : List Char) : List Char := l.takeWhile (· ≠ '_')

/-- Lines 106–107 composed: the simplified caption label of a column name. -/
def simplifyName (n : String) : String :=
  String.mk (stripAfterUnderscore (subROVloess n.data))

/-- Checks whether `sub` occurs in `l` (used for the anchored regex
`.*Lat|.*Lon|.*Time`, whose `.*` makes the match a substring test). -/
def hasSubChars (sub : List Char) : List Char → Bool
  | [] => sub.isEmpty
  | c :: cs => (sub.isPrefixOf (c :: cs)) || hasSubChars sub cs

/-- Line 111–112: does a simplified label match `re.compile('.*Lat|.*Lon|.*Time')`
(case-sensitive)? -/
def matchesStd (n : String) : Bool :=
  hasSubChars "Lat".data n.data || hasSubChars "Lon".data n.data ||
    hasSubChars "Time".data n.data

/-- Line 52 and 67: the configured column list with `'Time'` inserted at
position 1. -/
def names : List String :=
  ["Datetime", "Time", "Dive_Name", "ROV_Longitude_loess", "ROV_Latitude_loess",
   "Depth_m", "Speed_kts", "Altitude_m"]

/-- Lines 106–108: the simplified column labels assigned to `vdata.columns`. -/
def newnames : List String := names.map simplifyName

/-- Line 112: `stdfields = list(filter(r.match, newnames))`. -/
def stdfields : List String := newnames.filter matchesStd

/-- Line 113 up to the `set` conversion: the elements of
`set(newnames) - set(stdfields + ['Dive', 'Datetime'])` in `newnames` order.
The Python expression returns these in `set` iteration order, which depends
on the process's randomised string hashes; caption builders below therefore
take the order as an explicit argument ranging over permutations of this
list. -/
def othercolsBase : List String :=
  newnames.filter (fun n => !(matchesStd n || n == "Dive" || n == "Datetime"))

/-- Round-half-to-even at `d` decimal places (`pandas.DataFrame.round`),
on exact decimals.  A value with at most `d` decimals is rescaled exactly;
otherwise the mantissa is divided with floor semantics and the remainder
decides down / up / even, matching half-even rounding of the rational
value. -/
def roundHalfEven (d : Nat) (x : Dec) : Dec :=
  if x.exp ≤ d then ⟨x.mant * 10 ^ (d - x.exp), d⟩
  else
    let q : Int := 10 ^ (x.exp - d)
    let k : Int := x.mant / q
    let r : Int := x.mant % q
    ⟨if r * 2 < q then k
      else if q < r * 2 then k + 1
      else if k % 2 = 0 then k else k + 1, d⟩

/-- Lines 110–117: round lat/lon (std numeric fields) to 5 decimals and the
other sensor fields to 1 decimal; `Dive`, `Datetime` and the derived `Time`
are not numeric columns and are untouched. -/
def transformRow (r : TRow) : TRow :=
  { r with
    lon := roundHalfEven 5 r.lon
    lat := roundHalfEven 5 r.lat
    depth := roundHalfEven 1 r.depth
    speed := roundHalfEven 1 r.speed
    alt := roundHalfEven 1 r.alt }

/-- Lines 89–103: `dur = float(probe) + 1`, `videoEndDateTime =
videoStartDateTime + Timedelta(seconds=int(dur))`, then subset the dive's
rows to `videoStartDateTime <= Datetime <= videoEndDateTime` (three
successive order-preserving filters). -/
def selectRows (data : List TRow) (divename : String) (videoStart : Int)
    (probed : Dec) : List TRow :=
  ((data.filter (fun r => r.dive == divename)).filter
      (fun r => decide (videoStart ≤ r.datetime))).filter
    (fun r => decide (r.datetime ≤ videoStart + pyInt probed.addOne))

/-- Lines 97–117: the per-video table — selection followed by the rounding
transform applied to the subset. -/
def vdataFor (data : List TRow) (divename : String) (videoStart : Int)
    (probed : Dec) : List TRow :=
  (selectRows data divename videoStart probed).map transformRow

/-! ### Rendering -/

/-- Drop trailing zero decimals (float `str()` prints the shortest decimal:
no trailing zeros in the fractional part). -/
def stripZeros : Nat → Int → Nat → Int × Nat
  | 0, m, e => (m, e)
  | fuel + 1, m, e =>
    if e = 0 then (m, 0)
    else if m % 10 = 0 then stripZeros fuel (m / 10) (e - 1)
    else (m, e)

/-- Exactly `len` decimal digits of `n`, most significant first,
zero-padded. -/
def padDigits : Nat → Nat → List Char
  | 0, _ => []
  | len + 1, n => padDigits len (n / 10) ++ [digitChar (n % 10)]

/-- `str()` of a non-negative float holding an exact decimal value:
integer part, dot, then the fractional digits with trailing zeros stripped
(at least one digit, so `10` prints as `10.0`). -/
def renderDecNN (x : Dec) : String :=
  let me := stripZeros x.exp x.mant x.exp
  let ip := (me.1 / (10 : Int) ^ me.2).toNat
  let fr := (me.1 % (10 : Int) ^ me.2).toNat
  toString ip ++ "." ++ (if me.2 = 0 then "0" else String.mk (padDigits me.2 fr))

/-- `str()` of a float holding an exact decimal value. -/
def renderDec (x : Dec) : String :=
  if x.mant < 0 then "-" ++ renderDecNN ⟨-x.mant, x.exp⟩ else renderDecNN x

/-- Two-digit zero-padded string. -/
def pad2s (n : Nat) : String := String.mk (pad2 n)

/-- `str(datetime.time)` for the derived `Time` column: `HH:MM:SS`,
zero-padded hours. -/
def timeOfDayStr (t : Int) : String :=
  let u := (t.emod 86400).toNat
  pad2s (u / 3600) ++ ":" ++ pad2s (u / 60 % 60) ++ ":" ++ pad2s (u % 60)

/-- Lines 120–121: `str(timedelta).split(' ')[-1]` — `H:MM:SS` of the
seconds-of-day component, hours not zero-padded (the days part, if any, is
discarded by taking the last space-separated token). -/
def elapsedStr (e : Int) : String :=
  let u := (e.emod 86400).toNat
  toString (u / 3600) ++ ":" ++ pad2s (u / 60 % 60) ++ ":" ++ pad2s (u % 60)

/-- Value of a std-field column (line 132): the derived `Time` string or a
rounded coordinate. -/
def stdVal (r : TRow) (n : String) : String :=
  if n == "Time" then timeOfDayStr r.datetime
  else if n == "Longitude" then renderDec r.lon
  else if n == "Latitude" then renderDec r.lat
  else ""

/-- Value of an other-column (line 136). -/
def otherVal (r : TRow) (n : String) : Dec :=
  if n == "Depth" then r.depth
  else if n == "Speed" then r.speed
  else if n == "Altitude" then r.alt
  else ⟨0, 0⟩

/-- Lines 128–137: the strings appended to `strlist` for caption entry
`i + 1`, built from row `i` (and row `i + 1`'s elapsed time). -/
def entryStrings (i : Nat) (r rNext : TRow) (videoStart : Int)
    (stdf othr : List String) : List String :=
  (toString (i + 1) ++ "\n") ::
    (elapsedStr (r.datetime - videoStart) ++ " --> " ++
      elapsedStr (rNext.datetime - videoStart) ++ "\n") ::
    (stdf.map (fun s => s ++ ": " ++ stdVal r s ++ "   ") ++
      ("\n" :: (othr.map (fun o => o ++ ": " ++ renderDec (otherVal r o) ++ "   ") ++
        ["\n\n"])))

/-- Line 127: `for i in vdata.iloc[:-1].index` — after `reset_index` the
index is `0..N-1`, and dropping the last row leaves `0..N-2`; one block of
strings per retained index. -/
def entriesOf (rows : List TRow) (videoStart : Int) (stdf othr : List String) :
    List (List String) :=
  (List.range (rows.length - 1)).map
    (fun i => entryStrings i (rows.getD i dfltRow) (rows.getD (i + 1) dfltRow)
      videoStart stdf othr)

/-- Lines 124–143: the full caption file contents for one clip
(`f.writelines(strlist)` concatenates the accumulated strings).  `ordOther`
is the iteration order of the `othercols` set — a permutation of
`othercolsBase` chosen by Python's randomised hashing. -/
def genSubtitles (ordOther : List String) (data : List TRow) (divename : String)
    (videoStart : Int) (probed : Dec) : String :=
  String.join
    ((entriesOf (vdataFor data divename videoStart probed) videoStart stdfields
        ordOther).flatten)

/-- Follows the specification's words, not the script: "field rounding and
label normalization happen once at load, not per-emission" — the rounding
transform is applied to the whole telemetry table before any per-video
selection. -/
def genSubtitlesAtLoad (ordOther : List String) (data : List TRow)
    (divename : String) (videoStart : Int) (probed : Dec) : String :=
  String.join
    ((entriesOf (selectRows (data.map transformRow) divename videoStart probed)
        videoStart stdfields ordOther).flatten)

/-! ## Digit round-trip lemmas -/

theorem isDig_bounds {c : Char} (h : isDig c = true) :
    48 ≤ c.toNat ∧ c.toNat ≤ 57 := by
  simp only [isDig, Bool.and_eq_true, decide_eq_true_eq] at h
  exact h

theorem digVal_lt_ten {c : Char} (h : isDig c = true) : digVal c < 10 := by
  obtain ⟨h1, h2⟩ := isDig_bounds h
  simp only [digVal]
  omega

theorem digitChar_digVal {c : Char} (h : isDig c = true) :
    digitChar (digVal c) = c := by
  obtain ⟨h1, _⟩ := isDig_bounds h
  simp only [digitChar, digVal]
  rw [show 48 + (c.toNat - 48) = c.toNat by omega]
  exact Char.ofNat_toNat c

theorem pad2_num2 {a b : Char} (ha : isDig a = true) (hb : isDig b = true) :
    pad2 (num2 a b) = [a, b] := by
  have h1 := digVal_lt_ten ha
  have h2 := digVal_lt_ten hb
  simp only [pad2, num2]
  rw [show (10 * digVal a + digVal b) / 10 = digVal a by omega,
    show (10 * digVal a + digVal b) % 10 = digVal b by omega,
    digitChar_digVal ha, digitChar_digVal hb]

theorem pad4_num4 {a b c d : Char} (ha : isDig a = true) (hb : isDig b = true)
    (hc : isDig c = true) (hd : isDig d = true) :
    pad4 (num4 a b c d) = [a, b, c, d] := by
  have h1 := digVal_lt_ten ha
  have h2 := digVal_lt_ten hb
  have h3 := digVal_lt_ten hc
  have h4 := digVal_lt_ten hd
  simp only [pad4, num4]
  rw [show (1000 * digVal a + 100 * digVal b + 10 * digVal c + digVal d) / 1000
        = digVal a by omega,
    show (1000 * digVal a + 100 * digVal b + 10 * digVal c + digVal d) / 100 % 10
        = digVal b by omega,
    show (1000 * digVal a + 100 * digVal b + 10 * digVal c + digVal d) / 10 % 10
        = digVal c by omega,
    show (1000 * digVal a + 100 * digVal b + 10 * digVal c + digVal d) % 10
        = digVal d by omega,
    digitChar_digVal ha, digitChar_digVal hb, digitChar_digVal hc,
    digitChar_digVal hd]

theorem parseDTChars_fmt (ld lt : List Char) (dt : DateTime)
    (h : parseDTChars ld lt = some dt) : fmtChars dt = ld ++ '_' :: lt := by
  unfold parseDTChars at h
  split at h
  case h_2 => exact absurd h (by simp)
  case h_1 a b c d e f g hh p q r s t u =>
    split at h
    case isFalse => exact absurd h (by simp)
    case isTrue hdig =>
      simp only [Bool.and_eq_true] at hdig
      obtain ⟨⟨⟨⟨⟨⟨⟨⟨⟨⟨⟨⟨⟨ha, hb⟩, hc⟩, hd⟩, he⟩, hf⟩, hg⟩, hhh⟩, hp⟩, hq⟩,
        hr⟩, hs⟩, ht⟩, hu⟩ := hdig
      unfold mkDT at h
      split at h
      case isFalse => exact absurd h (by simp)
      case isTrue hvalid =>
        injection h with h
        subst h
        simp only [fmtChars, pad4_num4 ha hb hc hd, pad2_num2 he hf,
          pad2_num2 hg hhh, pad2_num2 hp hq, pad2_num2 hr hs, pad2_num2 ht hu]
        rfl

/-- C6: for every filename of the required four-segment structure with a
valid `YYYYMMDD_HHMMSS` timestamp portion, parsing the timestamp
(`strptime('%Y%m%d %H%M%S')`) and reformatting it with
`strftime('%Y%m%d_%H%M%S')` reproduces the original timestamp text: the
round trip of parse then format is the identity on the date and time
fields. -/
theorem timestamp_roundtrip (date timeStr : String) (dt : DateTime)
    (h : strptimeYmdHms date timeStr = some dt) :
    strftimeYmdHms dt = date ++ "_" ++ timeStr := by
  obtain ⟨ld⟩ := date
  obtain ⟨lt⟩ := timeStr
  have hfmt := parseDTChars_fmt ld lt dt h
  show String.mk (fmtChars dt) = _
  rw [hfmt]
  apply String.ext
  simp [String.data_append]

/-- Witness for C6 at the worked example's video timestamp. -/
theorem timestamp_roundtrip_witness :
    strftimeYmdHms ⟨2022, 7, 1, 9, 50, 0⟩ = "20220701" ++ "_" ++ "095000" :=
  timestamp_roundtrip "20220701" "095000" ⟨2022, 7, 1, 9, 50, 0⟩ (by decide)

/-! ## Filename parsing: too few and too many fields -/

/-- C8: every filename that splits into fewer than four underscore-separated
fields makes the parser fail with the malformed-filename error (the
`IndexError` raised by accessing `parts[1]`/`parts[2]`/`parts[3]`), never
succeed and never fail with one of the other error kinds. -/
theorem short_filename_malformed (video : String)
    (h : (splitOnChar '_' video.data).length < 4) :
    parseIdentity video = .error .malformedFilename := by
  have h3 : (splitOnChar '_' video.data)[3]? = none :=
    List.getElem?_eq_none (by omega)
  unfold parseIdentity parseVideoFilename
  simp only [h3]
  rcases (splitOnChar '_' video.data)[1]? with _ | d1 <;>
    rcases (splitOnChar '_' video.data)[2]? with _ | d2 <;> rfl

/-- Witness for C8: a two-field filename. -/
theorem short_filename_malformed_witness :
    parseIdentity "TR1_D01.mp4" = .error .malformedFilename :=
  short_filename_malformed "TR1_D01.mp4" (by decide)

/-- C10: a filename splitting into more than four fields is not rejected:
the trip ID, dive ID and timestamp are read from the first four fields (the
timestamp from fields three and four) and all trailing fields are silently
ignored. -/
theorem extra_fields_ignored (video : String)
    (trip dive date tpart r : List Char) (rest : List (List Char)) (dt : DateTime)
    (hsplit : splitOnChar '_' video.data = trip :: dive :: date :: tpart :: r :: rest)
    (hts : parseDTChars date ((splitOnChar '.' tpart).headD []) = some dt) :
    parseIdentity video = .ok (String.mk trip, String.mk dive, dt) := by
  unfold parseIdentity parseVideoFilename
  simp only [hsplit]
  show (match strptimeYmdHms (String.mk date) (String.mk ((splitOnChar '.' tpart).headD [])) with
    | none => Except.error PyErr.badTimestamp
    | some dt => Except.ok (String.mk trip, String.mk dive, dt)) = _
  show (match parseDTChars date ((splitOnChar '.' tpart).headD []) with
    | none => Except.error PyErr.badTimestamp
    | some dt => Except.ok (String.mk trip, String.mk dive, dt)) = _
  rw [hts]

/-- Witness for C10: a five-field filename with a valid timestamp; the
trailing `B2.mp4` field is ignored. -/
theorem extra_fields_ignored_witness :
    parseIdentity "TR1_D01_20220701_095000_B2.mp4" =
      .ok ("TR1", "D01", ⟨2022, 7, 1, 9, 50, 0⟩) :=
  extra_fields_ignored "TR1_D01_20220701_095000_B2.mp4"
    "TR1".data "D01".data "20220701".data "095000".data "B2.mp4".data []
    ⟨2022, 7, 1, 9, 50, 0⟩ (by decide) (by decide)

/-! ## Clip loop correctness -/

/-- Ceiling division over the integers, as a rational ceiling. -/
theorem ceil_div_int (L c : Int) (hc : 0 < c) :
    ⌈(L : Rat) / (c : Rat)⌉ = (L + c - 1) / c := by
  have hc0 : (0 : Rat) < (c : Rat) := by exact_mod_cast hc
  have hdm := Int.ediv_add_emod (L + c - 1) c
  have h0 : 0 ≤ (L + c - 1) % c := Int.emod_nonneg _ (by omega)
  have h1 : (L + c - 1) % c < c := Int.emod_lt_of_pos _ hc
  rw [Int.ceil_eq_iff]
  constructor
  · rw [lt_div_iff₀ hc0]
    have : ((L + c - 1) / c - 1) * c < L := by nlinarith [hdm]
    calc ((((L + c - 1) / c : Int) : Rat) - 1) * (c : Rat)
        = ((((L + c - 1) / c - 1) * c : Int) : Rat) := by push_cast; ring
      _ < (L : Rat) := by exact_mod_cast this
  · rw [div_le_iff₀ hc0]
    have : L ≤ (L + c - 1) / c * c := by nlinarith [hdm]
    calc (L : Rat) ≤ (((L + c - 1) / c * c : Int) : Rat) := by exact_mod_cast this
      _ = (((L + c - 1) / c : Int) : Rat) * (c : Rat) := by push_cast; ring

/-- The clip loop from a non-negative offset below one day, against a bound
that leaves no room for a 24-hour wrap, emits exactly the multiples-of-`c`
ladder from `v` up to the bound. -/
theorem clipLoop_eq (fuel : Nat) (v B c : Int) (hv0 : 0 ≤ v) (hv1 : v < 86400)
    (hc : 0 < c) (hBc : B + c ≤ 86400)
    (hfuel : ((B - v + c - 1) / c).toNat ≤ fuel) :
    clipLoop fuel v B c =
      (List.range ((B - v + c - 1) / c).toNat).map
        (fun i => ⟨v + (i : Int) * c, c⟩) := by
  induction fuel generalizing v with
  | zero =>
    have : ((B - v + c - 1) / c).toNat = 0 := by omega
    simp [clipLoop, this]
  | succ fuel ih =>
    have hmod : tdSeconds v = v := Int.emod_eq_of_lt hv0 hv1
    by_cases hlt : v < B
    · have hx : (0 : Int) ≤ B - v - 1 := by omega
      have hdiv : (B - v + c - 1) / c = (B - v - 1) / c + 1 := by
        rw [show B - v + c - 1 = B - v - 1 + 1 * c by ring,
          Int.add_mul_ediv_right _ _ (by omega)]
      have hq0 : 0 ≤ (B - v - 1) / c := Int.ediv_nonneg hx hc.le
      have hrec := ih (v + c) (by omega) (by omega)
        (by
          rw [show B - (v + c) + c - 1 = B - v - 1 by ring]
          omega)
      rw [show B - (v + c) + c - 1 = B - v - 1 by ring] at hrec
      rw [clipLoop, if_pos (by rw [hmod]; exact hlt), hrec, hdiv,
        Int.toNat_add hq0 (by omega), show ((1 : Int)).toNat = 1 from rfl,
        List.range_succ_eq_map, List.map_cons, List.map_map]
      congr 1
      · simp
      · apply List.map_congr_left
        intro i _
        simp only [Function.comp]
        congr 1
        push_cast
        ring
    · have hstop : ¬ tdSeconds v < B := by rw [hmod]; exact hlt
      have hnum : B - v + c - 1 < c := by omega
      have hn : ((B - v + c - 1) / c).toNat = 0 := by
        rcases le_or_lt 0 (B - v + c - 1) with hge | hlt2
        · rw [Int.ediv_eq_zero_of_lt hge hnum]
          rfl
        · have : (B - v + c - 1) / c < 0 := Int.ediv_neg' hlt2 hc
          omega
      rw [clipLoop, if_neg hstop, hn]
      rfl

/-- A fuelled run of the clip loop that stops before exhausting its fuel is
the loop's final answer: larger fuel gives the same list. -/
theorem clipLoop_stable (B c : Int) (f1 : Nat) :
    ∀ f2 v, f1 ≤ f2 → (clipLoop f1 v B c).length < f1 →
      clipLoop f2 v B c = clipLoop f1 v B c := by
  induction f1 with
  | zero => intro f2 v _ h; exact absurd h (by simp)
  | succ f1 ih =>
    intro f2 v hle hlen
    obtain ⟨f2, rfl⟩ : ∃ k, f2 = k + 1 := ⟨f2 - 1, by omega⟩
    by_cases hcond : tdSeconds v < B
    · rw [clipLoop, if_pos hcond] at hlen ⊢
      rw [clipLoop, if_pos hcond]
      simp only [List.length_cons] at hlen
      rw [ih f2 (v + c) (by omega) (by omega)]
    · rw [clipLoop, if_neg hcond, clipLoop, if_neg hcond]

/-- C1 (code bug): line 126 computes `elapsedSecs_endtransect` with
`timedelta.seconds`, which drops whole days: for a video starting
2022-07-01 00:00:00 and a transect ending 2022-07-02 01:00:00 (buffered end
01:00:30 the next day), the true span is 90030 s but the code computes
90030 mod 86400 = 3630 s, so the bound — and the wrapped running-elapsed
comparison against it — is not the full duration `bufferedEnd − videoStart`
demanded by the specification. -/
theorem elapsed_end_wraps :
    elapsedSecsEndTransect (toEpoch ⟨2022, 7, 1, 0, 0, 0⟩)
        (toEpoch ⟨2022, 7, 2, 1, 0, 0⟩) = 3630 ∧
      toEpoch ⟨2022, 7, 2, 1, 0, 0⟩ + 30 - toEpoch ⟨2022, 7, 1, 0, 0, 0⟩ = 90030 ∧
      (3630 : Int) ≠ 90030 := by
  refine ⟨by decide, by decide, by decide⟩

/-- C2 counterexample: a video exactly as long as a buffered window of
exactly 24 hours (video start = buffered start, probed duration = window
length 86400 s).  The claim demands ⌈86400/600⌉ = 144 boundaries, but the
wrapped bound `tdSeconds 86400 = 0` stops the loop immediately: the engine
emits no boundary at all. -/
theorem clip_count_wrap_cex :
    segmentVideo 0 30 86370 10 150 = [] ∧
      ⌈(86400 : Rat) / (600 : Rat)⌉ = 144 ∧ (144 : Int) ≠ 0 := by
  refine ⟨by decide, ?_, by decide⟩
  rw [show (86400 : Rat) = ((86400 : Int) : Rat) from rfl,
    show (600 : Rat) = ((600 : Int) : Rat) from rfl, ceil_div_int _ _ (by omega)]
  decide

/-- C2 (amended): for a video starting exactly at the buffered transect
start, with probed duration equal to the buffered window length `L`, and
`L` plus one clip length at most 24 h (the regime in which the wrapped
`timedelta.seconds` comparison of line 132 is faithful), the engine emits
exactly `⌈L / clipLen⌉` boundaries, at offsets `0, c, 2c, …` — strictly
increasing, spaced exactly one clip length apart, each with nominal duration
equal to the configured clip length. -/
theorem clip_count_buffered (videoStart tStartRaw tEndRaw L : Int) (dur : Rat)
    (m fuel : Nat) (hvs : videoStart = tStartRaw - 30)
    (hL : L = tEndRaw + 30 - (tStartRaw - 30)) (_hdur : dur = (L : Rat))
    (hm : 0 < m) (hL0 : 0 ≤ L) (hwrap : L + 60 * m ≤ 86400)
    (hfuel : (⌈(L : Rat) / ((60 * m : Int) : Rat)⌉).toNat ≤ fuel) :
    segmentVideo videoStart tStartRaw tEndRaw m fuel =
      (List.range (⌈(L : Rat) / ((60 * m : Int) : Rat)⌉).toNat).map
        (fun i => ⟨(i : Int) * (60 * m), 60 * m⟩) := by
  have hc : (0 : Int) < 60 * m := by positivity
  have hceil : ⌈(L : Rat) / ((60 * m : Int) : Rat)⌉ = (L + 60 * m - 1) / (60 * m) :=
    ceil_div_int L (60 * m) hc
  have hbound : elapsedSecsEndTransect videoStart tEndRaw = L := by
    unfold elapsedSecsEndTransect
    rw [show tEndRaw + 30 - videoStart = L by omega]
    exact Int.emod_eq_of_lt hL0 (by omega)
  unfold segmentVideo
  rw [hbound, show tStartRaw - 30 - videoStart = 0 by omega]
  rw [hceil] at hfuel ⊢
  rw [clipLoop_eq fuel 0 L (60 * m) le_rfl (by omega) hc (by omega)
    (by rw [show L - 0 + 60 * m - 1 = L + 60 * m - 1 by ring]; exact hfuel)]
  rw [show L - 0 + 60 * m - 1 = L + 60 * m - 1 by ring]
  apply List.map_congr_left
  intro i _
  simp

/-- Witness for C2 (amended): buffered window of 1260 s, 10-minute clips:
⌈1260/600⌉ = 3 boundaries at offsets 0, 600, 1200. -/
theorem clip_count_buffered_witness :
    segmentVideo 0 30 1230 10 5 =
      (List.range (⌈(1260 : Rat) / ((60 * (10 : Nat) : Int) : Rat)⌉).toNat).map
        (fun i => ⟨(i : Int) * (60 * (10 : Nat)), 60 * (10 : Nat)⟩) :=
  clip_count_buffered 0 30 1230 1260 1260 10 5 (by decide) (by decide)
    (by norm_num) (by decide) (by decide) (by norm_num)
    (by rw [ceil_div_int _ _ (by norm_num)]; norm_num)

/-- C3 counterexample: on the specification's worked example — transect
10:00:00–10:20:00 on 2022-07-01, 10-minute clips, video starting 09:50:00 —
the engine does not emit two boundaries at 570 s and 1170 s: a third clip
starts at 1770 s, since 1770 < elapsedAtTransectEnd = 1830. -/
theorem example_clip_offsets_cex :
    (segmentVideo (toEpoch ⟨2022, 7, 1, 9, 50, 0⟩) (toEpoch ⟨2022, 7, 1, 10, 0, 0⟩)
        (toEpoch ⟨2022, 7, 1, 10, 20, 0⟩) 10 10).map ClipBoundary.off ≠
      [570, 1170] := by
  decide

/-- C3 (amended): on the worked example the engine emits exactly three
boundaries, at offsets 570 s, 1170 s and 1770 s from video start (the loop
admits any offset strictly below 1830 s), independent of the fuel once the
loop has room to finish. -/
theorem example_clip_offsets (fuel : Nat) (hfuel : 4 ≤ fuel) :
    (segmentVideo (toEpoch ⟨2022, 7, 1, 9, 50, 0⟩) (toEpoch ⟨2022, 7, 1, 10, 0, 0⟩)
        (toEpoch ⟨2022, 7, 1, 10, 20, 0⟩) 10 fuel).map ClipBoundary.off =
      [570, 1170, 1770] := by
  unfold segmentVideo
  rw [show toEpoch ⟨2022, 7, 1, 10, 0, 0⟩ - 30 - toEpoch ⟨2022, 7, 1, 9, 50, 0⟩
      = 570 by decide,
    show elapsedSecsEndTransect (toEpoch ⟨2022, 7, 1, 9, 50, 0⟩)
      (toEpoch ⟨2022, 7, 1, 10, 20, 0⟩) = 1830 by decide,
    show (60 : Int) * ((10 : Nat) : Int) = 600 by decide,
    clipLoop_stable 1830 600 4 fuel 570 hfuel (by decide)]
  decide

/-- Witness for C3 (amended) at fuel 10. -/
theorem example_clip_offsets_witness :
    (segmentVideo (toEpoch ⟨2022, 7, 1, 9, 50, 0⟩) (toEpoch ⟨2022, 7, 1, 10, 0, 0⟩)
        (toEpoch ⟨2022, 7, 1, 10, 20, 0⟩) 10 10).map ClipBoundary.off =
      [570, 1170, 1770] :=
  example_clip_offsets 10 (by decide)

/-! ## Caption alignment: entry counts and row selection -/

/-- C4: for `N` selected telemetry rows the caption builder emits exactly
`N − 1` entry blocks, whose index lines are exactly `1 .. N−1`, contiguous
with no gaps (the loop runs over the reset index of `vdata.iloc[:-1]`); for
`N = 0` or `N = 1` the truncated subtraction gives zero blocks — an empty
caption file, not an error. -/
theorem caption_entry_indices (rows : List TRow) (videoStart : Int)
    (stdf othr : List String) :
    (entriesOf rows videoStart stdf othr).length = rows.length - 1 ∧
      (entriesOf rows videoStart stdf othr).map (fun b => b.headD "") =
        (List.range (rows.length - 1)).map (fun i => toString (i + 1) ++ "\n") := by
  constructor
  · simp [entriesOf]
  · simp only [entriesOf, List.map_map]
    apply List.map_congr_left
    intro i _
    rfl

/-- `int(dur)` for `dur = probed + 1` with a non-negative probed duration is
the floor of the rational value `probed + 1`. -/
theorem pyInt_addOne (x : Dec) (hx : 0 ≤ x.mant) :
    pyInt x.addOne = ⌊x.toRat + 1⌋ := by
  have hpow : (0 : Int) < 10 ^ x.exp := by positivity
  have hq : x.toRat + 1 =
      ((x.mant + 10 ^ x.exp : Int) : Rat) / ((10 ^ x.exp : Nat) : Rat) := by
    unfold Dec.toRat
    push_cast
    field_simp
  rw [hq, Rat.floor_intCast_div_natCast]
  simp only [pyInt, Dec.addOne]
  rw [if_neg (by omega)]
  push_cast
  rfl

/-- C5: the caption alignment engine selects exactly the telemetry rows of
the clip's dive whose timestamp `t` satisfies
`clipStart ≤ t ≤ clipStart + probedDuration + 1 s`, both bounds inclusive,
keeping the original chronological order (the result is a single
order-preserving filter of the dive's rows).  Timestamps are whole seconds,
so the integer end bound `clipStart + int(probed + 1)` admits exactly the
rows within the rational bound `clipStart + probed + 1`. -/
theorem selection_window (data : List TRow) (divename : String)
    (videoStart : Int) (probed : Dec) (hp : 0 ≤ probed.mant) :
    selectRows data divename videoStart probed =
      data.filter (fun r =>
        decide (r.dive = divename ∧ videoStart ≤ r.datetime ∧
          (r.datetime : Rat) ≤ (videoStart : Rat) + probed.toRat + 1)) := by
  have hint : pyInt probed.addOne = ⌊probed.toRat + 1⌋ := pyInt_addOne probed hp
  unfold selectRows
  rw [hint, List.filter_filter, List.filter_filter]
  apply List.filter_congr
  intro r _
  have hiff : (r.datetime ≤ videoStart + ⌊probed.toRat + 1⌋) ↔
      ((r.datetime : Rat) ≤ (videoStart : Rat) + probed.toRat + 1) := by
    rw [show (r.datetime ≤ videoStart + ⌊probed.toRat + 1⌋) ↔
        (r.datetime - videoStart ≤ ⌊probed.toRat + 1⌋) by omega,
      Int.le_floor]
    push_cast
    constructor <;> intro h <;> linarith
  rw [show (r.dive == divename) = decide (r.dive = divename) by
      by_cases h : r.dive = divename <;> simp [h],
    show decide (r.datetime ≤ videoStart + ⌊probed.toRat + 1⌋) =
        decide ((r.datetime : Rat) ≤ (videoStart : Rat) + probed.toRat + 1) from
      decide_eq_decide.mpr hiff]
  by_cases h1 : r.dive = divename <;>
    by_cases h2 : videoStart ≤ r.datetime <;>
    by_cases h3 : (r.datetime : Rat) ≤ (videoStart : Rat) + probed.toRat + 1 <;>
    simp [h1, h2, h3]

/-- Witness for C5: three in-window rows of dive D01 are kept in order; a
row of another dive and a row past the bound are dropped. -/
theorem selection_window_witness :
    selectRows
      [⟨"D01", 36000, ⟨0, 0⟩, ⟨0, 0⟩, ⟨1, 0⟩, ⟨1, 0⟩, ⟨1, 0⟩⟩,
        ⟨"D02", 36001, ⟨0, 0⟩, ⟨0, 0⟩, ⟨1, 0⟩, ⟨1, 0⟩, ⟨1, 0⟩⟩,
        ⟨"D01", 36005, ⟨0, 0⟩, ⟨0, 0⟩, ⟨2, 0⟩, ⟨1, 0⟩, ⟨1, 0⟩⟩,
        ⟨"D01", 36010, ⟨0, 0⟩, ⟨0, 0⟩, ⟨3, 0⟩, ⟨1, 0⟩, ⟨1, 0⟩⟩,
        ⟨"D01", 36020, ⟨0, 0⟩, ⟨0, 0⟩, ⟨4, 0⟩, ⟨1, 0⟩, ⟨1, 0⟩⟩] "D01" 36000 ⟨12, 0⟩ =
      List.filter (fun r =>
        decide (r.dive = "D01" ∧ 36000 ≤ r.datetime ∧
          (r.datetime : Rat) ≤ ((36000 : Int) : Rat) + Dec.toRat ⟨12, 0⟩ + 1))
        [⟨"D01", 36000, ⟨0, 0⟩, ⟨0, 0⟩, ⟨1, 0⟩, ⟨1, 0⟩, ⟨1, 0⟩⟩,
          ⟨"D02", 36001, ⟨0, 0⟩, ⟨0, 0⟩, ⟨1, 0⟩, ⟨1, 0⟩, ⟨1, 0⟩⟩,
          ⟨"D01", 36005, ⟨0, 0⟩, ⟨0, 0⟩, ⟨2, 0⟩, ⟨1, 0⟩, ⟨1, 0⟩⟩,
          ⟨"D01", 36010, ⟨0, 0⟩, ⟨0, 0⟩, ⟨3, 0⟩, ⟨1, 0⟩, ⟨1, 0⟩⟩,
          ⟨"D01", 36020, ⟨0, 0⟩, ⟨0, 0⟩, ⟨4, 0⟩, ⟨1, 0⟩, ⟨1, 0⟩⟩] :=
  selection_window _ "D01" 36000 ⟨12, 0⟩ (by decide)

/-! ## Error propagation through the batch loop -/

/-- Dive log dictionary of the demonstration runs: only dive D01 is known. -/
def startsDemo : String → Option String :=
  fun k => if k == "D01" then some "2022-07-01 10:00:00" else none

/-- Transect-end dictionary of the demonstration runs. -/
def endsDemo : String → Option String :=
  fun k => if k == "D01" then some "2022-07-01 10:20:00" else none

/-- Probe stdout of the demonstration runs: every video reports 1800 s. -/
def probeDemo : String → String := fun _ => "1800.000000\n"

/-- C7 counterexample: a batch whose first video references the unknown dive
D02 aborts with the missing-key error (the `TypeError` from
`strptime(None, ...)` is uncaught), and the valid second video is never
processed — whereas the specification's skip-and-continue policy would
still clip it. -/
theorem batch_aborts_cex :
    processBatch startsDemo endsDemo probeDemo 10 10
        ["TR1_D02_20220701_095000.mp4", "TR1_D01_20220701_095000.mp4"] =
      .error .missingDiveKey ∧
      processBatchSpecSkip startsDemo endsDemo probeDemo 10 10
          ["TR1_D02_20220701_095000.mp4", "TR1_D01_20220701_095000.mp4"] =
        [("TR1_D01_20220701_095000.mp4", [⟨570, 600⟩, ⟨1170, 600⟩, ⟨1770, 600⟩])] := by
  refine ⟨by decide, by decide⟩

/-- C7 (amended): any per-item error — missing dive key, unparseable probe
output, malformed name or timestamp — raised while processing one video
aborts the whole batch at that video: the run does not continue with the
next file. -/
theorem error_aborts_batch (starts ends : String → Option String)
    (probeOut : String → String) (m fuel : Nat) (v : String) (vs : List String)
    (e : PyErr) (h : processVideo starts ends probeOut m fuel v = .error e) :
    processBatch starts ends probeOut m fuel (v :: vs) = .error e := by
  unfold processBatch
  rw [h]

/-- Witness for C7 (amended) on the demonstration batch. -/
theorem error_aborts_batch_witness :
    processBatch startsDemo endsDemo probeDemo 10 10
        ["TR1_D02_20220701_095000.mp4"] = .error .missingDiveKey :=
  error_aborts_batch startsDemo endsDemo probeDemo 10 10
    "TR1_D02_20220701_095000.mp4" [] .missingDiveKey (by decide)

/-! ## Caption determinism and the other-columns set order -/

/-- Filtering commutes with a row map that preserves the filtered fields. -/
theorem filter_map_comm (f : TRow → TRow) (p : TRow → Bool)
    (hp : ∀ r, p (f r) = p r) :
    ∀ l : List TRow, (l.map f).filter p = (l.filter p).map f := by
  intro l
  induction l with
  | nil => rfl
  | cons r rs ih =>
    by_cases h : p r = true
    · simp [List.filter_cons, hp, h, ih]
    · simp [List.filter_cons, hp, h, ih]

/-- The clip-window selection only reads the dive name and the timestamp,
both untouched by the rounding transform, so selecting then rounding equals
rounding the whole table at load and then selecting. -/
theorem selectRows_map_transform (data : List TRow) (divename : String)
    (videoStart : Int) (probed : Dec) :
    selectRows (data.map transformRow) divename videoStart probed =
      (selectRows data divename videoStart probed).map transformRow := by
  unfold selectRows
  rw [filter_map_comm transformRow (fun r => r.dive == divename)
      (fun r => rfl) data,
    filter_map_comm transformRow (fun r => decide (videoStart ≤ r.datetime))
      (fun r => rfl),
    filter_map_comm transformRow
      (fun r => decide (r.datetime ≤ videoStart + pyInt probed.addOne))
      (fun r => rfl)]

/-- C9 (amended): for a fixed iteration order of the derived other-columns
set, caption output is a pure function of the telemetry data and the clip
parameters — two runs with the same order are byte-identical — and applying
the rounding transform per video (as the script does, inside the loop) is
equivalent to applying it once at load, as the specification words it. -/
theorem captions_transform_at_load (ordOther : List String) (data : List TRow)
    (divename : String) (videoStart : Int) (probed : Dec) :
    genSubtitles ordOther data divename videoStart probed =
      genSubtitlesAtLoad ordOther data divename videoStart probed := by
  unfold genSubtitles genSubtitlesAtLoad vdataFor
  rw [selectRows_map_transform]

/-- Two telemetry rows of dive D01 five seconds apart, for the
order-sensitivity counterexample. -/
def hashOrderData : List TRow :=
  [⟨"D01", 36000, ⟨0, 0⟩, ⟨0, 0⟩, ⟨105, 1⟩, ⟨1, 0⟩, ⟨3, 0⟩⟩,
    ⟨"D01", 36005, ⟨0, 0⟩, ⟨0, 0⟩, ⟨11, 0⟩, ⟨1, 0⟩, ⟨3, 0⟩⟩]

/-- C9 counterexample: two legitimate iteration orders of the other-columns
set — `list(set(newnames) - set(...))` depends on the process's randomised
string hashes, so both occur across runs on identical inputs — produce
caption files that differ byte-for-byte (the Depth and Speed lines swap). -/
theorem caption_order_dependent :
    genSubtitles ["Depth", "Speed", "Altitude"] hashOrderData "D01" 36000 ⟨12, 0⟩ ≠
        genSubtitles ["Speed", "Depth", "Altitude"] hashOrderData "D01" 36000 ⟨12, 0⟩ ∧
      ["Depth", "Speed", "Altitude"].Perm othercolsBase ∧
        ["Speed", "Depth", "Altitude"].Perm othercolsBase := by
  refine ⟨by decide, by decide, by decide⟩

end ClipVideos
